import Mathlib

/-!
Shallow embedding of the hydra interactive client (`client/client.go`):
the endpoint connector (`connect`), the timeout-bounded dispatcher
(`dispatcher`), and the outer request loop in `main` that sequences
requests, retries failed dispatches through reconnection, validates
replies and records per-request statistics.

Modelling conventions:
* A network dial is modelled by an oracle `Dial : String → Bool`
  (deterministic per address within one sweep); `net.Dial` success is
  `dial addr = true`.
* Go's panic on out-of-range slice indexing is modelled by
  `Except GoPanic`.
* The unbounded loops of the Go code (the reconnect loop in `main` and
  the per-request dispatch loop) consume finite oracle lists; running
  out of oracle entries is the `stuck` outcome, standing for the code
  still looping.
* `msgs.Marshal` and the wire bytes are abstracted by the per-attempt
  outcome oracle `AttemptOutcome`: each dispatch attempt either fails
  (dispatcher error), decodes badly (`msgs.Unmarshal` error), or
  produces a decoded `ClientResponse` — exactly the three-way branch
  at lines 190-200 of `client.go`.
-/

/-- A dial oracle: whether `net.Dial("tcp", addr)` succeeds for a given
address. -/
abbrev Dial := String → Bool

/-- Go runtime panic, here only the out-of-range slice index raised by
`addrs[hint]` in `connect`. -/
inductive GoPanic
  | indexOutOfRange
deriving DecidableEq, Repr

/-- The value triple returned by `connect` in `client.go` (lines 34-67):
the connection (modelled by the address it is bound to, `none` when
`net.Dial` failed), the returned index, and whether `err == nil`. -/
structure ConnectRes where
  conn : Option String
  index : Nat
  ok : Bool
deriving DecidableEq, Repr

/-- The inner `for t := tries; t > 0; t--` sweep of `connect`
(lines 50-64): walk the address list from position `i`, attempting each
address `tries` times; with a deterministic dial oracle this succeeds on
an address iff `tries > 0` and the oracle accepts it.  Returns the index
and address of the first success. -/
def sweepFrom (dial : Dial) (tries : Nat) : List String → Nat → Option (Nat × String)
  | [], _ => none
  | a :: rest, i =>
    if 0 < tries ∧ dial a = true then some (i, a)
    else sweepFrom dial tries rest (i + 1)

/-- `connect(addrs, tries, hint)` from `client.go` lines 34-67: dial the
hinted address once (the fast path); indexing `addrs[hint]` has no
bounds check, so an out-of-range hint panics.  If the fast path fails,
sweep the whole list with `tries` attempts per endpoint, returning the
first success and its index; if everything fails, return no connection,
index `hint + 1`, and a non-nil error. -/
def connect (addrs : List String) (dial : Dial) (tries : Nat) (hint : Nat) :
    Except GoPanic ConnectRes :=
  match addrs[hint]? with
  | none => .error .indexOutOfRange
  | some a =>
    if dial a then .ok ⟨some a, hint, true⟩
    else
      match sweepFrom dial tries addrs 0 with
      | some (i, b) => .ok ⟨some b, i, true⟩
      | none => .ok ⟨none, hint + 1, false⟩

/-- The sequence of addresses `connect` actually dials, in order: the
hinted address first (exactly once), then — only if that fails — the
full sweep.  On an out-of-range hint the code panics before dialing
anything. -/
def sweepTrace (dial : Dial) (tries : Nat) : List String → List String
  | [] => []
  | a :: rest =>
    if tries = 0 then sweepTrace dial tries rest
    else if dial a then [a]
    else List.replicate tries a ++ sweepTrace dial tries rest

/-- Dial trace of `connect`: the hinted endpoint is attempted first and
exactly once before any sweep. -/
def connectTrace (addrs : List String) (dial : Dial) (tries : Nat) (hint : Nat) :
    List String :=
  match addrs[hint]? with
  | none => []
  | some a => if dial a then [a] else a :: sweepTrace dial tries addrs

/-- Result of `connect` as observed at startup (lines 144-147): a failed
sweep is `glog.Fatal`, i.e. process termination. -/
inductive StartupRes
  | up (conn : Option String) (leader : Nat)
  | fatalStop
deriving DecidableEq, Repr

/-- The startup connection of `main` (lines 144-147):
`connect(conf.Addresses.Address, 1, 0)` followed by `glog.Fatal(err)`
when the sweep failed. -/
def clientStartup (addrs : List String) (dial : Dial) : Except GoPanic StartupRes :=
  match connect addrs dial 1 0 with
  | .error p => .error p
  | .ok r => if r.ok then .ok (.up r.conn r.index) else .ok .fatalStop

/-- Outcome of the unbounded reconnect loop of `main` (lines 204-211). -/
inductive ReconRes
  | panicked
  | stuck
  | okRes (leader : Nat) (ds : List Dial)

/-- The reconnect loop of `main` (lines 204-211): repeatedly call
`connect(conf.Addresses.Address, leader+1, conf.Parameters.Retries)` —
note the call site puts `leader+1` in the `tries` position and the
configured retry count in the `hint` position — sleeping one second
between failed sweeps, until `err == nil`.  The Go multiple assignment
updates `leader` from `connect`'s second return value even on failure.
Each loop iteration consumes one dial oracle; an exhausted oracle list
is `stuck` (the code would still be looping). -/
def reconnectLoop (addrs : List String) (retries : Nat) : Nat → List Dial → ReconRes
  | _, [] => .stuck
  | leader, d :: ds =>
    match connect addrs d (leader + 1) retries with
    | .error _ => .panicked
    | .ok r => if r.ok then .okRes r.index ds else reconnectLoop addrs retries r.index ds

/-- A decoded `msgs.ClientResponse`. -/
structure ClientResponse where
  clientID : Int
  requestID : Nat
  response : String
deriving DecidableEq, Repr

/-- The Go zero value `msgs.ClientResponse{}` used in the nil-reply
check at line 218. -/
def emptyResponse : ClientResponse := ⟨0, 0, ""⟩

/-- Combined result of one dispatch attempt as branched on at lines
190-200: dispatcher error (IO error or timeout), dispatcher success
with `msgs.Unmarshal` failure, or a decoded reply. -/
inductive AttemptOutcome
  | dispatchFail
  | decodeFail
  | reply (r : ClientResponse)
deriving DecidableEq, Repr

/-- One command pulled from `ioapi.Next()`. -/
structure Cmd where
  text : String
  replicate : Bool
deriving DecidableEq, Repr

/-- Client-visible state threaded through the request loop: the request
counter (line 141), the leader hint, the stats rows written to the csv
(line 234: request id and attempt count), and the responses handed to
`ioapi.Return` in order (line 244). -/
structure LoopState where
  requestID : Nat
  leader : Nat
  stats : List (Nat × Nat)
  delivered : List String
deriving DecidableEq, Repr

/-- The state of `main` right before the request goroutine starts:
`requestID := 1` (line 141) and the leader index produced by the
startup connection. -/
def initState (leader : Nat) : LoopState := ⟨1, leader, [], []⟩

/-- Outcome of the per-command dispatch loop (lines 188-215). -/
inductive AttemptRes
  | stuck
  | panicked
  | ok (r : ClientResponse) (tries : Nat) (leader : Nat)
      (os : List AttemptOutcome) (ds : List Dial)

/-- The per-command dispatch loop (lines 188-215): `tries++` on every
attempt; a decoded reply breaks out of the loop; any dispatch or decode
failure runs the reconnect loop before the next attempt.  Each attempt
consumes one outcome oracle entry; an exhausted list is `stuck`. -/
def attemptLoop (addrs : List String) (retries : Nat) :
    Nat → Nat → List AttemptOutcome → List Dial → AttemptRes
  | _, _, [], _ => .stuck
  | leader, tries, o :: os, ds =>
    match o with
    | .reply r => .ok r (tries + 1) leader os ds
    | _ =>
      match reconnectLoop addrs retries leader ds with
      | .panicked => .panicked
      | .stuck => .stuck
      | .okRes l2 ds2 => attemptLoop addrs retries l2 (tries + 1) os ds2

/-- Terminal observation of a request-loop run. -/
inductive RunOutcome
  | finished (st : LoopState) (os : List AttemptOutcome) (ds : List Dial)
  | fatal (msg : String) (st : LoopState)
  | panicked (st : LoopState)
  | stuck (st : LoopState)

/-- The request goroutine of `main` (lines 164-246): pull commands until
the source is exhausted; for each command reset `tries` to zero, run the
dispatch loop, then validate the decoded reply — a zero-value reply or a
ClientID/RequestID mismatch is `glog.Fatal` — then append a stats row
carrying the pre-increment request id and the attempt count, increment
`requestID`, and hand the response to `ioapi.Return`. -/
def requestLoop (id : Int) (addrs : List String) (retries : Nat) :
    List Cmd → LoopState → List AttemptOutcome → List Dial → RunOutcome
  | [], st, os, ds => .finished st os ds
  | _ :: cs, st, os, ds =>
    match attemptLoop addrs retries st.leader 0 os ds with
    | .stuck => .stuck st
    | .panicked => .panicked st
    | .ok r tries l2 os2 ds2 =>
      if r = emptyResponse then .fatal "Response is nil" { st with leader := l2 }
      else if r.clientID ≠ id then .fatal "wrong ClientID" { st with leader := l2 }
      else if r.requestID ≠ st.requestID then .fatal "wrong RequestID" { st with leader := l2 }
      else requestLoop id addrs retries cs
        { requestID := st.requestID + 1, leader := l2,
          stats := st.stats ++ [(st.requestID, tries)],
          delivered := st.delivered ++ [r.response] } os2 ds2

/-- The client state carried by any terminal run outcome. -/
def stateOf : RunOutcome → LoopState
  | .finished st _ _ => st
  | .fatal _ st => st
  | .panicked st => st
  | .stuck st => st

/-- Whether a run ended in `glog.Fatal` from reply validation. -/
def isFatalRun : RunOutcome → Bool
  | .fatal _ _ => true
  | _ => false

/-- Stats rows of a run's terminal state. -/
def statsOf (o : RunOutcome) : List (Nat × Nat) := (stateOf o).stats

/-- Responses delivered to `ioapi.Return` by a run. -/
def deliveredOf (o : RunOutcome) : List String := (stateOf o).delivered

/-- The RequestID bookkeeping invariant: at every observable point the
counter equals one plus the number of delivered commands. -/
def ridInvariant (o : RunOutcome) : Prop :=
  (stateOf o).requestID = 1 + (stateOf o).delivered.length

/-- A dial oracle accepting every address. -/
def allUp : Dial := fun _ => true

/-- A dial oracle rejecting every address. -/
def allDown : Dial := fun _ => false

/-- A dial oracle accepting only the address `"B"`. -/
def onlyB : Dial := fun s => s == "B"

/-!
Dispatcher model (`client.go` lines 70-106).  The goroutine performs
two writes (only the second write's error is observed — the first is
shadowed by the Go reassignment at line 78), then one delimited read;
each non-nil, non-`io.EOF` error is sent to `errCh`, and the read bytes
are always sent to `replyCh` afterwards.  Both channels have buffer
capacity one.  The `select` takes the first deposit, unless the
`time.After` timer fires first.
-/

/-- Observed result of the second `conn.Write` (line 78): `err == nil`,
`err == io.EOF`, or any other error. -/
inductive WriteRes
  | ok
  | eofErr
  | failErr
deriving DecidableEq, Repr

/-- Result of `r.ReadBytes('\n')` (line 87), always carrying the bytes
read so far (on `io.EOF` these are the bytes received before the peer
closed, without a delimiter). -/
inductive ReadRes
  | ok (bs : String)
  | eofErr (bs : String)
  | failErr (bs : String)
deriving DecidableEq, Repr

/-- The bytes value `ReadBytes` returned alongside its error. -/
def readBytes : ReadRes → String
  | .ok bs => bs
  | .eofErr bs => bs
  | .failErr bs => bs

/-- Whether the read error is non-nil and not `io.EOF` (the guard at
line 88). -/
def isReadFail : ReadRes → Bool
  | .failErr _ => true
  | _ => false

/-- The two channels of the dispatcher. -/
inductive Chan
  | errChan
  | replyChan
deriving DecidableEq, Repr

/-- The channel sends the goroutine attempts, in program order (lines
75-95): an `errCh` send for a non-EOF write failure, an `errCh` send
for a non-EOF read failure, and always a final `replyCh` send. -/
def sendsOf (w2 : WriteRes) (rd : ReadRes) : List Chan :=
  (if w2 = WriteRes.failErr then [Chan.errChan] else []) ++
    (if isReadFail rd then [Chan.errChan] else []) ++ [Chan.replyChan]

/-- Dispatcher outcome as seen by the caller of `dispatcher`. -/
inductive DispatchOutcome
  | reply (bs : String)
  | ioError
  | timeout
deriving DecidableEq, Repr

/-- The outcome the `select` (lines 98-105) returns: `Timeout` when the
timer fires first, otherwise the first deposit in goroutine program
order — an `errCh` deposit yields the IO error, a `replyCh` deposit
yields the read bytes with a nil error. -/
def dispatchModel (w2 : WriteRes) (rd : ReadRes) (timerFirst : Bool) : DispatchOutcome :=
  if timerFirst then .timeout
  else
    match sendsOf w2 rd with
    | Chan.errChan :: _ => .ioError
    | _ => .reply (readBytes rd)

/-- Run the goroutine's sends against buffered channels: `es` and `rs`
are the free slots of `errCh` and `replyCh`.  A send into a full buffer
with no consumer blocks the goroutine forever (`false`). -/
def runSends : List Chan → Nat → Nat → Bool
  | [], _, _ => true
  | Chan.errChan :: rest, es, rs => if 0 < es then runSends rest (es - 1) rs else false
  | Chan.replyChan :: rest, es, rs => if 0 < rs then runSends rest es (rs - 1) else false

/-- Whether the dispatcher goroutine completes all its channel sends.
Each channel has buffer capacity one; when the timer did not fire first
the `select` additionally consumes the first deposit (freeing one slot
of that channel), and after `dispatcher` returns nobody ever receives
again. -/
def producerCompletes (w2 : WriteRes) (rd : ReadRes) (timedOut : Bool) : Bool :=
  let sends := sendsOf w2 rd
  let consumed : Option Chan := if timedOut then none else sends.head?
  runSends sends (1 + (if consumed = some Chan.errChan then 1 else 0))
    (1 + (if consumed = some Chan.replyChan then 1 else 0))

/-- An out-of-range hint makes `connect` hit the unguarded `addrs[hint]`
and panic before dialing anything. -/
theorem connect_oob (addrs : List String) (dial : Dial) (tries hint : Nat)
    (h : addrs.length ≤ hint) :
    connect addrs dial tries hint = Except.error GoPanic.indexOutOfRange := by
  simp only [connect, List.getElem?_eq_none h]

/-- Claim C1: the claim says the Reconnecting phase invokes `connect`
with hint `leader + 1` and per-endpoint attempt count
`conf.Parameters.Retries`.  The call at line 205 transposes the two
arguments (`connect(addrs, tries, hint)` receives `leader+1` as `tries`
and `Retries` as `hint`), which the code's own parameter names and the
startup call `connect(addrs, 1, 0)` show to be a slip.  Evaluating the
code at the failing input: with both endpoints reachable, `leader = 0`
and `Retries = 2`, the reconnect loop panics on `addrs[2]`, while the
invocation the claim describes (hint `1`, two tries per endpoint) would
succeed immediately. -/
theorem C1_reconnect_transposed :
    reconnectLoop ["A", "B"] 2 0 [allUp] = ReconRes.panicked ∧
    connect ["A", "B"] allUp 2 1 = Except.ok ⟨some "B", 1, true⟩ :=
  ⟨rfl, rfl⟩

/-- Claim C2, counterexample: a clean EOF on the read is explicitly
excluded from the error channel (line 88), so the dispatcher returns
the bytes read so far with a nil error — a successful exchange, not an
IOError — refuting "folded into the failure category … never as a
successful exchange". -/
theorem C2_eof_not_failure_counterexample :
    dispatchModel WriteRes.ok (ReadRes.eofErr "partial") false =
      DispatchOutcome.reply "partial" ∧
    dispatchModel WriteRes.ok (ReadRes.eofErr "partial") false ≠
      DispatchOutcome.ioError := by
  refine ⟨rfl, ?_⟩
  decide

/-- Claim C2, amended: a non-EOF write or read failure yields an
IOError outcome; a clean EOF from the peer is not surfaced as an error
by the dispatcher — it yields a successful exchange carrying the bytes
read before the stream ended, and becomes a retried failure only if
those bytes later fail to decode. -/
theorem C2_dispatch_errors (w2 : WriteRes) (rd : ReadRes) :
    (w2 = WriteRes.failErr → dispatchModel w2 rd false = DispatchOutcome.ioError) ∧
    (isReadFail rd = true → dispatchModel w2 rd false = DispatchOutcome.ioError) ∧
    (w2 ≠ WriteRes.failErr → ∀ bs, rd = ReadRes.eofErr bs →
      dispatchModel w2 rd false = DispatchOutcome.reply bs) := by
  refine ⟨?_, ?_, ?_⟩
  · rintro rfl
    cases rd <;> simp [dispatchModel, sendsOf, isReadFail, readBytes]
  · intro h
    cases w2 <;> cases rd <;>
      simp_all [dispatchModel, sendsOf, isReadFail, readBytes]
  · rintro hw bs rfl
    cases w2 <;> simp_all [dispatchModel, sendsOf, isReadFail, readBytes]

/-- Witness for C2's amended theorem at a concrete input. -/
theorem C2_dispatch_errors_witness :
    isReadFail (ReadRes.failErr "boom") = true ∧
    dispatchModel WriteRes.ok (ReadRes.failErr "boom") false =
      DispatchOutcome.ioError :=
  ⟨rfl, (C2_dispatch_errors WriteRes.ok (ReadRes.failErr "boom")).2.1 rfl⟩

/-- Claim C3, counterexample: at startup (lines 144-147) an exhausted
sweep is handed to `glog.Fatal`, terminating the process — refuting
"in every state of the client, including the initial connection at
startup, an exhausted sweep is recovered by waiting and re-sweeping
rather than terminating". -/
theorem C3_startup_fatal_counterexample :
    clientStartup ["A"] allDown = Except.ok StartupRes.fatalStop := rfl

/-- Claim C3, amended: during the Reconnecting phase an exhausted sweep
is indeed never surfaced as a terminal error — the loop sleeps and
re-sweeps with the next dial oracle — but at initial startup a failed
sweep is surfaced as a terminal fatal error. -/
theorem C3_resweep (addrs : List String) (retries leader : Nat) (d : Dial)
    (ds : List Dial) (r : ConnectRes)
    (hc : connect addrs d (leader + 1) retries = Except.ok r)
    (hfail : r.ok = false) :
    reconnectLoop addrs retries leader (d :: ds) = reconnectLoop addrs retries r.index ds ∧
    clientStartup ["A"] allDown = Except.ok StartupRes.fatalStop := by
  refine ⟨?_, rfl⟩
  simp only [reconnectLoop]
  rw [hc]
  simp [hfail]

/-- Witness for C3's amended theorem at a concrete input. -/
theorem C3_resweep_witness :
    connect ["A"] allDown 1 0 = Except.ok ⟨none, 1, false⟩ ∧
    (⟨none, 1, false⟩ : ConnectRes).ok = false ∧
    reconnectLoop ["A"] 0 0 (allDown :: []) = reconnectLoop ["A"] 0 1 [] :=
  ⟨rfl, rfl, (C3_resweep ["A"] 0 0 allDown [] ⟨none, 1, false⟩ rfl rfl).1⟩

/-- Claim C4: the claim says a late exchange result can always be
deposited without the producing goroutine blocking forever, for every
combination of write failure, read failure, and timeout.  Evaluating
the code at the failing input: when both the write and the read fail
with non-EOF errors and the timer fired before either error was
consumed, the second `errCh` send finds the one-slot buffer full with
no receiver left and blocks the goroutine forever; with a consumer
still present the same sends all complete. -/
theorem C4_late_writer_blocks :
    producerCompletes WriteRes.failErr (ReadRes.failErr "") true = false ∧
    producerCompletes WriteRes.failErr (ReadRes.failErr "") false = true := by
  decide

/-- Claim C10: `connect` indexes the endpoint list at the hint without
a bounds check, so any hint at or past the end of the list panics
instead of returning an error; the reconnect path passes
`conf.Parameters.Retries` in the hint position, so whenever
`Retries ≥ len(addrs)` every reconnect attempt panics — and a full run
reaches that panic from a single dispatch failure. -/
theorem C10_unchecked_hint_panic :
    (∀ (addrs : List String) (dial : Dial) (tries hint : Nat),
      addrs.length ≤ hint →
        connect addrs dial tries hint = Except.error GoPanic.indexOutOfRange) ∧
    (∀ (addrs : List String) (retries leader : Nat) (d : Dial) (ds : List Dial),
      addrs.length ≤ retries →
        reconnectLoop addrs retries leader (d :: ds) = ReconRes.panicked) ∧
    requestLoop 7 ["A", "B"] 2 [⟨"x", true⟩] (initState 0)
      [AttemptOutcome.dispatchFail] [allUp] = RunOutcome.panicked (initState 0) := by
  refine ⟨fun addrs dial tries hint h => connect_oob addrs dial tries hint h, ?_, rfl⟩
  intro addrs retries leader d ds h
  simp only [reconnectLoop, connect_oob addrs d (leader + 1) retries h]

/-- Witness for C10 at a concrete input. -/
theorem C10_unchecked_hint_panic_witness :
    (["A"] : List String).length ≤ 1 ∧
    connect ["A"] allUp 5 1 = Except.error GoPanic.indexOutOfRange ∧
    reconnectLoop ["A"] 1 0 [allUp] = ReconRes.panicked :=
  ⟨by decide, C10_unchecked_hint_panic.1 ["A"] allUp 5 1 (by decide),
    C10_unchecked_hint_panic.2.1 ["A"] 1 0 allUp [] (by decide)⟩

/-- Soundness of the sweep: a hit at index `j` starting from counter `i`
is the list element at position `j - i`, and its dial succeeded. -/
theorem sweepFrom_sound (dial : Dial) (tries : Nat) :
    ∀ (l : List String) (i j : Nat) (b : String),
      sweepFrom dial tries l i = some (j, b) →
      i ≤ j ∧ l[j - i]? = some b ∧ dial b = true := by
  intro l
  induction l with
  | nil =>
      intro i j b h
      simp [sweepFrom] at h
  | cons a rest ih =>
      intro i j b h
      simp only [sweepFrom] at h
      by_cases hc : 0 < tries ∧ dial a = true
      · rw [if_pos hc] at h
        injection h with h'
        injection h' with hij hab
        subst hij
        subst hab
        exact ⟨le_refl i, by simp, hc.2⟩
      · rw [if_neg hc] at h
        obtain ⟨h1, h2, h3⟩ := ih (i + 1) j b h
        refine ⟨by omega, ?_, h3⟩
        have hji : j - i = (j - (i + 1)) + 1 := by omega
        rw [hji, List.getElem?_cons_succ]
        exact h2

/-- Claim C8: `connect` attempts the hinted endpoint first and exactly
once on the fast path, and every successful return carries the index of
the endpoint the connection is bound to; Scenario A: endpoints
`[A (down), B (up)]` with hint `0` and one try per endpoint yields a
connection to `B` with resolved index `1`. -/
theorem C8_connect_hint_and_index :
    (∀ (addrs : List String) (dial : Dial) (tries hint : Nat) (a : String),
      addrs[hint]? = some a →
        (connectTrace addrs dial tries hint).take 1 = [a] ∧
        (dial a = true →
          connectTrace addrs dial tries hint = [a] ∧
          connect addrs dial tries hint = Except.ok ⟨some a, hint, true⟩)) ∧
    (∀ (addrs : List String) (dial : Dial) (tries hint : Nat) (r : ConnectRes),
      connect addrs dial tries hint = Except.ok r → r.ok = true →
        r.conn = addrs[r.index]? ∧ ∀ b, r.conn = some b → dial b = true) ∧
    connect ["A", "B"] onlyB 1 0 = Except.ok ⟨some "B", 1, true⟩ := by
  refine ⟨?_, ?_, rfl⟩
  · intro addrs dial tries hint a h
    simp only [connectTrace, h]
    by_cases hd : dial a
    · rw [if_pos hd]
      exact ⟨rfl, fun _ => ⟨rfl, by simp only [connect, h]; rw [if_pos hd]⟩⟩
    · rw [if_neg hd]
      exact ⟨rfl, fun hda => absurd hda hd⟩
  · intro addrs dial tries hint r hc hok
    cases hh : addrs[hint]? with
    | none =>
        simp only [connect, hh] at hc
        exact absurd hc (by simp)
    | some a =>
        simp only [connect, hh] at hc
        by_cases hd : dial a
        · rw [if_pos hd] at hc
          injection hc with h'
          subst h'
          exact ⟨hh.symm, fun b hb => by injection hb with hb'; subst hb'; exact hd⟩
        · rw [if_neg hd] at hc
          cases hs : sweepFrom dial tries addrs 0 with
          | none =>
              simp only [hs] at hc
              injection hc with h'
              subst h'
              simp at hok
          | some p =>
              obtain ⟨i, b⟩ := p
              simp only [hs] at hc
              injection hc with h'
              subst h'
              obtain ⟨hle, hget, hdb⟩ := sweepFrom_sound dial tries addrs 0 i b hs
              rw [Nat.sub_zero] at hget
              exact ⟨hget.symm, fun b2 hb2 => by injection hb2 with hb'; subst hb'; exact hdb⟩

/-- Witness for C8 at concrete inputs. -/
theorem C8_connect_hint_and_index_witness :
    (["A", "B"] : List String)[(0 : Nat)]? = some "A" ∧
    (connectTrace ["A", "B"] onlyB 1 0).take 1 = ["A"] ∧
    connect ["A", "B"] allUp 3 1 = Except.ok ⟨some "B", 1, true⟩ ∧
    (⟨some "B", 1, true⟩ : ConnectRes).conn = (["A", "B"] : List String)[(1 : Nat)]? :=
  ⟨rfl, (C8_connect_hint_and_index.1 ["A", "B"] onlyB 1 0 "A" rfl).1, rfl,
    (C8_connect_hint_and_index.2.1 ["A", "B"] allUp 3 1 ⟨some "B", 1, true⟩ rfl rfl).1⟩

/-- Claim C9: when the command source signals no more commands the loop
finishes cleanly, consuming no further dispatch attempts; Scenario D:
two commands, two deliveries, and the remaining outcome oracle is left
untouched — no third request is initiated. -/
theorem C9_clean_termination :
    (∀ (id : Int) (addrs : List String) (retries : Nat) (st : LoopState)
      (os : List AttemptOutcome) (ds : List Dial),
      requestLoop id addrs retries [] st os ds = RunOutcome.finished st os ds) ∧
    requestLoop 7 ["A"] 0 [⟨"a", true⟩, ⟨"b", false⟩] (initState 0)
      [AttemptOutcome.reply ⟨7, 1, "one"⟩, AttemptOutcome.reply ⟨7, 2, "two"⟩,
        AttemptOutcome.reply ⟨7, 3, "spare"⟩] []
      = RunOutcome.finished ⟨3, 0, [(1, 1), (2, 1)], ["one", "two"]⟩
          [AttemptOutcome.reply ⟨7, 3, "spare"⟩] [] :=
  ⟨fun _ _ _ _ _ _ => rfl, rfl⟩

/-- The request counter stays one ahead of the number of delivered
commands through every step of the loop. -/
theorem requestLoop_rid_aux (id : Int) (addrs : List String) (retries : Nat) :
    ∀ (cmds : List Cmd) (st : LoopState) (os : List AttemptOutcome) (ds : List Dial),
      st.requestID = 1 + st.delivered.length →
      ridInvariant (requestLoop id addrs retries cmds st os ds) := by
  intro cmds
  induction cmds with
  | nil =>
      intro st os ds h
      simpa [requestLoop, ridInvariant, stateOf] using h
  | cons c cs ih =>
      intro st os ds h
      simp only [requestLoop]
      rcases hA : attemptLoop addrs retries st.leader 0 os ds with _ | _ | ⟨r, t, l2, os2, ds2⟩ <;>
        simp only [hA]
      · simpa [ridInvariant, stateOf] using h
      · simpa [ridInvariant, stateOf] using h
      · by_cases h1 : r = emptyResponse
        · rw [if_pos h1]
          simpa [ridInvariant, stateOf] using h
        · rw [if_neg h1]
          by_cases h2 : r.clientID ≠ id
          · rw [if_pos h2]
            simpa [ridInvariant, stateOf] using h
          · rw [if_neg h2]
            by_cases h3 : r.requestID ≠ st.requestID
            · rw [if_pos h3]
              simpa [ridInvariant, stateOf] using h
            · rw [if_neg h3]
              apply ih
              simp only [List.length_append, List.length_cons, List.length_nil]
              omega

/-- Claim C6: the request counter starts at 1 (line 141) and, at every
terminal observation of any run — finished, fatal, panicked, or still
stuck retrying — equals one plus the number of delivered commands: it
advances exactly when a request is delivered and never across failed
attempts, reconnects, or decode failures. -/
theorem C6_requestid_invariant (id : Int) (addrs : List String) (retries : Nat)
    (cmds : List Cmd) (os : List AttemptOutcome) (ds : List Dial) (l0 : Nat) :
    (initState l0).requestID = 1 ∧
    ridInvariant (requestLoop id addrs retries cmds (initState l0) os ds) :=
  ⟨rfl, requestLoop_rid_aux id addrs retries cmds (initState l0) os ds (by simp [initState])⟩

/-- The attempt counter rises by exactly one per consumed dispatch
outcome. -/
theorem attemptLoop_count (addrs : List String) (retries : Nat) :
    ∀ (os : List AttemptOutcome) (leader k : Nat) (ds : List Dial)
      (r : ClientResponse) (t l2 : Nat) (os2 : List AttemptOutcome) (ds2 : List Dial),
      attemptLoop addrs retries leader k os ds = AttemptRes.ok r t l2 os2 ds2 →
      t + os2.length = k + os.length := by
  intro os
  induction os with
  | nil =>
      intro leader k ds r t l2 os2 ds2 h
      simp [attemptLoop] at h
  | cons o os ih =>
      intro leader k ds r t l2 os2 ds2 h
      cases o with
      | reply r0 =>
          simp only [attemptLoop, AttemptRes.ok.injEq] at h
          obtain ⟨h1, h2, h3, h4, h5⟩ := h
          subst h2
          subst h4
          simp only [List.length_cons]
          omega
      | dispatchFail =>
          simp only [attemptLoop] at h
          rcases hR : reconnectLoop addrs retries leader ds with _ | _ | ⟨l3, ds3⟩ <;>
            rw [hR] at h
          · simp at h
          · simp at h
          · have := ih l3 (k + 1) ds3 r t l2 os2 ds2 h
            simp only [List.length_cons]
            omega
      | decodeFail =>
          simp only [attemptLoop] at h
          rcases hR : reconnectLoop addrs retries leader ds with _ | _ | ⟨l3, ds3⟩ <;>
            rw [hR] at h
          · simp at h
          · simp at h
          · have := ih l3 (k + 1) ds3 r t l2 os2 ds2 h
            simp only [List.length_cons]
            omega

/-- Claim C7: the attempt counter is reset to zero at the start of each
command (`requestLoop` enters `attemptLoop` with `0`), incremented
exactly once per dispatch attempt — the returned count plus the
leftover outcomes equals the outcomes offered — and the recorded stats
row carries exactly that count; Scenario B: two failed attempts
followed by a successful third record an attempt count of 3. -/
theorem C7_tries_counting :
    (∀ (addrs : List String) (retries leader : Nat) (os : List AttemptOutcome)
      (ds : List Dial) (r : ClientResponse) (t l2 : Nat)
      (os2 : List AttemptOutcome) (ds2 : List Dial),
      attemptLoop addrs retries leader 0 os ds = AttemptRes.ok r t l2 os2 ds2 →
      t + os2.length = os.length) ∧
    (∀ (id : Int) (addrs : List String) (retries : Nat) (c : Cmd) (st : LoopState)
      (os : List AttemptOutcome) (ds : List Dial) (r : ClientResponse) (t l2 : Nat)
      (os2 : List AttemptOutcome) (ds2 : List Dial),
      attemptLoop addrs retries st.leader 0 os ds = AttemptRes.ok r t l2 os2 ds2 →
      r ≠ emptyResponse → r.clientID = id → r.requestID = st.requestID →
      statsOf (requestLoop id addrs retries [c] st os ds) =
        st.stats ++ [(st.requestID, t)]) ∧
    statsOf (requestLoop 7 ["A", "B"] 1 [⟨"x", true⟩] (initState 0)
      [AttemptOutcome.dispatchFail, AttemptOutcome.dispatchFail,
        AttemptOutcome.reply ⟨7, 1, "OK"⟩] [allUp, allUp]) = [(1, 3)] := by
  refine ⟨?_, ?_, rfl⟩
  · intro addrs retries leader os ds r t l2 os2 ds2 h
    have hcnt := attemptLoop_count addrs retries os leader 0 ds r t l2 os2 ds2 h
    omega
  · intro id addrs retries c st os ds r t l2 os2 ds2 hA hne hcid hrid
    simp only [requestLoop, hA]
    rw [if_neg hne, if_neg (show ¬r.clientID ≠ id by simp [hcid]),
      if_neg (show ¬r.requestID ≠ st.requestID by simp [hrid])]
    simp [requestLoop, statsOf, stateOf]

/-- Witness for C7 at concrete inputs. -/
theorem C7_tries_counting_witness :
    attemptLoop ["A"] 0 0 0 [AttemptOutcome.reply ⟨7, 1, "OK"⟩] [] =
      AttemptRes.ok ⟨7, 1, "OK"⟩ 1 0 [] [] ∧
    1 + ([] : List AttemptOutcome).length =
      ([AttemptOutcome.reply ⟨7, 1, "OK"⟩] : List AttemptOutcome).length ∧
    statsOf (requestLoop 7 ["A"] 0 [⟨"x", true⟩] (initState 0)
      [AttemptOutcome.reply ⟨7, 1, "OK"⟩] []) = [(1, 1)] :=
  ⟨rfl,
    C7_tries_counting.1 ["A"] 0 0 [AttemptOutcome.reply ⟨7, 1, "OK"⟩] []
      ⟨7, 1, "OK"⟩ 1 0 [] [] rfl,
    C7_tries_counting.2.1 7 ["A"] 0 ⟨"x", true⟩ (initState 0)
      [AttemptOutcome.reply ⟨7, 1, "OK"⟩] [] ⟨7, 1, "OK"⟩ 1 0 [] [] rfl
      (by decide) rfl rfl⟩

/-- Claim C5: a successfully decoded reply that is the zero value or
carries a ClientID or RequestID different from the outstanding request
makes the loop terminate with a fatal error — it is never retried, and
the result callback receives nothing (the delivered list is unchanged). -/
theorem C5_protocol_violation_fatal (id : Int) (addrs : List String) (retries : Nat)
    (c : Cmd) (cs : List Cmd) (st : LoopState) (os : List AttemptOutcome) (ds : List Dial)
    (r : ClientResponse) (t l2 : Nat) (os2 : List AttemptOutcome) (ds2 : List Dial)
    (hA : attemptLoop addrs retries st.leader 0 os ds = AttemptRes.ok r t l2 os2 ds2)
    (hbad : r = emptyResponse ∨ r.clientID ≠ id ∨ r.requestID ≠ st.requestID) :
    isFatalRun (requestLoop id addrs retries (c :: cs) st os ds) = true ∧
    deliveredOf (requestLoop id addrs retries (c :: cs) st os ds) = st.delivered := by
  simp only [requestLoop, hA]
  by_cases h1 : r = emptyResponse
  · rw [if_pos h1]
    exact ⟨rfl, rfl⟩
  · rw [if_neg h1]
    by_cases h2 : r.clientID ≠ id
    · rw [if_pos h2]
      exact ⟨rfl, rfl⟩
    · rw [if_neg h2]
      by_cases h3 : r.requestID ≠ st.requestID
      · rw [if_pos h3]
        exact ⟨rfl, rfl⟩
      · rcases hbad with hb | hb | hb
        · exact absurd hb h1
        · exact absurd hb h2
        · exact absurd hb h3

/-- Witness for C5: a forged reply with the wrong ClientID produces a
fatal stop and no delivery. -/
theorem C5_protocol_violation_fatal_witness :
    attemptLoop ["A"] 0 (initState 0).leader 0
      [AttemptOutcome.reply ⟨9, 1, "bad"⟩] [] =
      AttemptRes.ok ⟨9, 1, "bad"⟩ 1 0 [] [] ∧
    ((⟨9, 1, "bad"⟩ : ClientResponse) = emptyResponse ∨
      (⟨9, 1, "bad"⟩ : ClientResponse).clientID ≠ 7 ∨
      (⟨9, 1, "bad"⟩ : ClientResponse).requestID ≠ (initState 0).requestID) ∧
    isFatalRun (requestLoop 7 ["A"] 0 [⟨"x", true⟩] (initState 0)
      [AttemptOutcome.reply ⟨9, 1, "bad"⟩] []) = true ∧
    deliveredOf (requestLoop 7 ["A"] 0 [⟨"x", true⟩] (initState 0)
      [AttemptOutcome.reply ⟨9, 1, "bad"⟩] []) = (initState 0).delivered :=
  ⟨rfl, Or.inr (Or.inl (by decide)),
    C5_protocol_violation_fatal 7 ["A"] 0 ⟨"x", true⟩ [] (initState 0)
      [AttemptOutcome.reply ⟨9, 1, "bad"⟩] [] ⟨9, 1, "bad"⟩ 1 0 [] [] rfl
      (Or.inr (Or.inl (by decide)))⟩
